import Mathlib

/-!
Verification development for the envoy-wasm-header-augmenting-filter repository
(src/src/lib.rs). The filter is shallowly embedded: host interactions
(timer arming, shared-data writes, HTTP dispatch, log lines, HTTP responses)
are recorded as explicit events, byte buffers are lists of naturals
(byte values 0..255), and a Rust panic is modelled as the `none` case of an
`Option`-valued result. External library functions used by the filter
(serde_json parsing, Rust's UTF-8 validation, humanized duration parsing)
are modelled executably below, restricted where noted to the fragments the
filter's payloads exercise.
-/

/-- JSON values as produced by serde_json::from_slice::<Value>. An object is
kept as the list of its fields in document order; serde_json's Map iterates
in sorted key order and keeps the last value for a duplicated key, which for
lookup purposes agrees with folding the document-order list (later entries
overwrite earlier ones). Numbers are modelled as integers: the payloads this
filter exchanges carry no fractional or exponent parts. -/
inductive Json where
  | null : Json
  | bool (b : Bool) : Json
  | num (n : Int) : Json
  | str (s : String) : Json
  | arr (elems : List Json) : Json
  | obj (fields : List (String × Json)) : Json

/-- Model of serde_json::Value::as_object: `some` fields exactly when the
value is an object. -/
def Json.getObj : Json → Option (List (String × Json))
  | .obj m => some m
  | _ => none

/-- Model of serde_json::Value::as_str: `some` exactly when the value is a
JSON string (no stringification of other value types). -/
def Json.as_str : Json → Option String
  | .str s => some s
  | _ => none

/-- ASCII bytes of a Lean string literal (used only for ASCII payloads). -/
def strBytes (s : String) : List Nat :=
  s.data.map Char.toNat

/-- True for a UTF-8 continuation byte (0x80..0xBF). -/
def isCont (b : Nat) : Bool :=
  128 ≤ b && b < 192

/-- UTF-8 decoding of a byte list, fuelled for structural recursion. Models
Rust's String::from_utf8 validity rules: continuation-byte placement,
overlong encodings, surrogates and out-of-range scalars are all rejected. -/
def utf8DecodeList : Nat → List Nat → Option (List Char)
  | 0, _ => none
  | _ + 1, [] => some []
  | fuel + 1, b :: r =>
    if b < 128 then
      (utf8DecodeList fuel r).map (Char.ofNat b :: ·)
    else if b < 194 then
      none
    else if b < 224 then
      match r with
      | b1 :: r1 =>
        if isCont b1 then
          (utf8DecodeList fuel r1).map (Char.ofNat ((b - 192) * 64 + (b1 - 128)) :: ·)
        else none
      | _ => none
    else if b < 240 then
      match r with
      | b1 :: b2 :: r2 =>
        if isCont b1 && isCont b2 then
          let c := (b - 224) * 4096 + (b1 - 128) * 64 + (b2 - 128)
          if 2048 ≤ c && !(55296 ≤ c && c ≤ 57343) then
            (utf8DecodeList fuel r2).map (Char.ofNat c :: ·)
          else none
        else none
      | _ => none
    else if b < 245 then
      match r with
      | b1 :: b2 :: b3 :: r3 =>
        if isCont b1 && isCont b2 && isCont b3 then
          let c := (b - 240) * 262144 + (b1 - 128) * 4096 + (b2 - 128) * 64 + (b3 - 128)
          if 65536 ≤ c && c ≤ 1114111 then
            (utf8DecodeList fuel r3).map (Char.ofNat c :: ·)
          else none
        else none
      | _ => none
    else none

/-- Model of Rust's String::from_utf8 over a byte buffer: `some` exactly when
the bytes are valid UTF-8. -/
def utf8Decode (bs : List Nat) : Option String :=
  (utf8DecodeList (bs.length + 1) bs).map fun cs => ⟨cs⟩

/-- JSON insignificant whitespace: space, tab, line feed, carriage return. -/
def isWs (b : Nat) : Bool :=
  b == 32 || b == 9 || b == 10 || b == 13

/-- Drop leading JSON whitespace bytes. -/
def skipWs : List Nat → List Nat
  | [] => []
  | b :: r => if isWs b then skipWs r else b :: r

/-- True for an ASCII digit byte. -/
def isDigitByte (b : Nat) : Bool :=
  48 ≤ b && b ≤ 57

/-- Split a leading run of digit bytes from the rest of the input. -/
def takeDigits : List Nat → List Nat × List Nat
  | [] => ([], [])
  | b :: r =>
    if isDigitByte b then
      let p := takeDigits r
      (b :: p.1, p.2)
    else ([], b :: r)

/-- Numeric value of a list of ASCII digit bytes. -/
def digitsToNat (ds : List Nat) : Nat :=
  ds.foldl (fun a b => a * 10 + (b - 48)) 0

/-- Parse a JSON number (integer form; a fractional part or exponent is not
modelled and is rejected, see the note on `Json`). -/
def parseNumber (input : List Nat) : Option (Json × List Nat) :=
  let p := match input with
    | 45 :: r => (true, r)
    | r => (false, r)
  match takeDigits p.2 with
  | ([], _) => none
  | (ds, rest) =>
    match rest with
    | 46 :: _ => none
    | 101 :: _ => none
    | 69 :: _ => none
    | _ =>
      let n : Int := Int.ofNat (digitsToNat ds)
      some (.num (if p.1 then -n else n), rest)

/-- Parse the bytes of a JSON string after its opening quote, returning the
unescaped content bytes and the input after the closing quote. The simple
escape sequences are handled; a \u escape is not modelled and is rejected. -/
def parseStringBytes : Nat → List Nat → Option (List Nat × List Nat)
  | 0, _ => none
  | _ + 1, [] => none
  | fuel + 1, b :: r =>
    if b == 34 then some ([], r)
    else if b == 92 then
      match r with
      | [] => none
      | e :: r2 =>
        let c : Option Nat :=
          if e == 34 then some 34
          else if e == 92 then some 92
          else if e == 47 then some 47
          else if e == 98 then some 8
          else if e == 102 then some 12
          else if e == 110 then some 10
          else if e == 114 then some 13
          else if e == 116 then some 9
          else none
        match c with
        | some c0 => (parseStringBytes fuel r2).map fun p => (c0 :: p.1, p.2)
        | none => none
    else if b < 32 then none
    else (parseStringBytes fuel r).map fun p => (b :: p.1, p.2)

/-- Parse a comma-separated list of JSON array elements up to the closing
bracket, given a parser `pv` for a single value. -/
def parseElemsAux (pv : List Nat → Option (Json × List Nat)) :
    Nat → List Nat → Option (List Json × List Nat)
  | 0, _ => none
  | fuel + 1, input =>
    match pv input with
    | none => none
    | some (j, r) =>
      match skipWs r with
      | 44 :: r2 => (parseElemsAux pv fuel r2).map fun p => (j :: p.1, p.2)
      | 93 :: r2 => some ([j], r2)
      | _ => none

/-- Parse a comma-separated list of JSON object members up to the closing
brace, given a parser `pv` for a single value. -/
def parseMembersAux (pv : List Nat → Option (Json × List Nat)) :
    Nat → List Nat → Option (List (String × Json) × List Nat)
  | 0, _ => none
  | fuel + 1, input =>
    match skipWs input with
    | 34 :: r =>
      match parseStringBytes (r.length + 1) r with
      | none => none
      | some (cs, r2) =>
        match utf8Decode cs with
        | none => none
        | some key =>
          match skipWs r2 with
          | 58 :: r3 =>
            match pv r3 with
            | none => none
            | some (v, r4) =>
              match skipWs r4 with
              | 44 :: r5 => (parseMembersAux pv fuel r5).map fun p => ((key, v) :: p.1, p.2)
              | 125 :: r5 => some ([(key, v)], r5)
              | _ => none
          | _ => none
    | _ => none

/-- Parse one JSON value from the input (fuelled by nesting depth), returning
the value and the remaining input. -/
def parseValue : Nat → List Nat → Option (Json × List Nat)
  | 0, _ => none
  | fuel + 1, input =>
    match skipWs input with
    | 110 :: 117 :: 108 :: 108 :: r => some (.null, r)
    | 116 :: 114 :: 117 :: 101 :: r => some (.bool true, r)
    | 102 :: 97 :: 108 :: 115 :: 101 :: r => some (.bool false, r)
    | 34 :: r =>
      match parseStringBytes (r.length + 1) r with
      | none => none
      | some (cs, r2) => (utf8Decode cs).map fun s => (.str s, r2)
    | 91 :: r =>
      (match skipWs r with
       | 93 :: r2 => some (.arr [], r2)
       | r1 => (parseElemsAux (parseValue fuel) (r1.length + 1) r1).map fun p => (.arr p.1, p.2))
    | 123 :: r =>
      (match skipWs r with
       | 125 :: r2 => some (.obj [], r2)
       | r1 => (parseMembersAux (parseValue fuel) (r1.length + 1) r1).map fun p => (.obj p.1, p.2))
    | rest => parseNumber rest

/-- Model of serde_json::from_slice::<Value>: parse one JSON value covering
the whole byte buffer (modulo surrounding whitespace). -/
def jsonParse (bs : List Nat) : Option Json :=
  match parseValue (bs.length + 1) bs with
  | none => none
  | some (j, r) =>
    match skipWs r with
    | [] => some j
    | _ => none

/-- Modelled from the spec: the `header_cache_expiry` field is parsed by the
external serde_humanize_rs / humanize-rs crates (not part of this repository),
which accept a human-readable duration string such as "360s". We model the
single-component integer-with-unit form; the result is in nanoseconds
(matching Rust's std::time::Duration precision). Anything else (no digits,
missing or unknown unit) fails, as the crate rejects unparsable strings. -/
def parseDuration (s : String) : Option Nat :=
  let digits := s.data.takeWhile Char.isDigit
  let rest := s.data.dropWhile Char.isDigit
  if digits.isEmpty then none
  else
    let n := digits.foldl (fun a c => a * 10 + (c.toNat - 48)) 0
    match rest with
    | ['n', 's'] => some n
    | ['u', 's'] => some (n * 1000)
    | ['m', 's'] => some (n * 1000000)
    | ['s'] => some (n * 1000000000)
    | ['m'] => some (n * 60000000000)
    | ['h'] => some (n * 3600000000000)
    | ['d'] => some (n * 86400000000000)
    | _ => none

/-- Nanoseconds in one second, for writing durations. -/
def nanosPerSec : Nat := 1000000000

/-- The filter configuration struct of src/src/lib.rs (FilterConfig). The
cache-expiry duration is held in nanoseconds. -/
structure FilterConfig where
  header_providing_service_cluster : String
  header_providing_service_path : String
  header_providing_service_authority : String
  header_cache_expiry : Nat

/-- Default::default() for FilterConfig as implemented in src/src/lib.rs. -/
def FilterConfig.default : FilterConfig :=
  { header_providing_service_cluster := "sidecar"
    header_providing_service_path := "/headers"
    header_providing_service_authority := "sidecar"
    header_cache_expiry := 360 * nanosPerSec }

/-- First value bound to a field name in a JSON object. FilterConfig
deserialisation rejects a duplicated known field (see `dupKnownField`), so
wherever it reads a field, the first binding is the only binding. -/
def lookupField (m : List (String × Json)) (k : String) : Option Json :=
  (m.find? fun p => p.1 == k).map fun p => p.2

/-- Number of bindings of a field name in a JSON object. -/
def countField (m : List (String × Json)) (k : String) : Nat :=
  (m.filter fun p => p.1 == k).length

/-- A known FilterConfig field bound more than once in the payload object.
serde_derive's Deserialize impl errors with duplicate_field when a known
struct field occurs twice (unknown fields are ignored and may repeat). -/
def dupKnownField (m : List (String × Json)) : Bool :=
  2 ≤ countField m "header_providing_service_cluster"
  || 2 ≤ countField m "header_providing_service_path"
  || 2 ≤ countField m "header_providing_service_authority"
  || 2 ≤ countField m "header_cache_expiry"

/-- Deserialisation of one string-typed field under #[serde(default)]:
absent means the default, a JSON string is taken verbatim, any other JSON
type is a type error. -/
def getStringField (m : List (String × Json)) (k : String) (d : String) :
    Except String String :=
  match lookupField m k with
  | none => .ok d
  | some (.str s) => .ok s
  | some _ => .error "invalid type"

/-- Deserialisation of the duration field (serde_humanize_rs): absent means
the default, a parseable duration string is converted, an unparsable string
or any non-string JSON type is an error. -/
def getDurationField (m : List (String × Json)) (k : String) (d : Nat) :
    Except String Nat :=
  match lookupField m k with
  | none => .ok d
  | some (.str s) =>
    match parseDuration s with
    | some n => .ok n
    | none => .error "invalid duration"
  | some _ => .error "invalid type"

/-- Deserialize for FilterConfig (derived in the source with
#[serde(default)]): only a JSON object deserialises; a duplicated known
field is a duplicate_field error; otherwise each of the four fields is read
as above; any field error fails the whole struct (serde never partially
applies a payload). The accepted payloads and the resulting struct match
serde_derive exactly; only the identity of the reported error (duplicate
versus type error, when a payload has both) is not tracked. -/
def FilterConfig.fromJson (j : Json) : Except String FilterConfig :=
  match j.getObj with
  | none => .error "invalid type"
  | some m =>
    if dupKnownField m then .error "duplicate field"
    else
    match getStringField m "header_providing_service_cluster"
        FilterConfig.default.header_providing_service_cluster with
    | .error e => .error e
    | .ok cluster =>
      match getStringField m "header_providing_service_path"
          FilterConfig.default.header_providing_service_path with
      | .error e => .error e
      | .ok path =>
        match getStringField m "header_providing_service_authority"
            FilterConfig.default.header_providing_service_authority with
        | .error e => .error e
        | .ok authority =>
          match getDurationField m "header_cache_expiry"
              FilterConfig.default.header_cache_expiry with
          | .error e => .error e
          | .ok expiry => .ok ⟨cluster, path, authority, expiry⟩

/-- Model of serde_json::from_slice::<FilterConfig>: parse the bytes as JSON,
then deserialise the struct. -/
def parseFilterConfig (bs : List Nat) : Except String FilterConfig :=
  match jsonParse bs with
  | none => .error "invalid json"
  | some j => FilterConfig.fromJson j

/-- The POWERED_BY constant of src/src/lib.rs. -/
def POWERED_BY : String := "header-augmenting-filter"

/-- The CACHE_KEY constant of src/src/lib.rs. -/
def CACHE_KEY : String := "cache"

/-- The INITIALISATION_TICK constant of src/src/lib.rs: 3 seconds, in
nanoseconds. -/
def INITIALISATION_TICK : Nat := 3 * nanosPerSec

/-- The 5-second timeout passed to dispatch_http_call in on_tick. -/
def DISPATCH_TIMEOUT : Nat := 5 * nanosPerSec

/-- Host interactions performed by the filter, in program order. Log lines
carry their message so that "a warning is recorded" is a statement about the
trace. -/
inductive Event where
  | debugLog (msg : String) : Event
  | warn (msg : String) : Event
  | setTickPeriod (nanos : Nat) : Event
  | setSharedData (ok : Bool) : Event
  | dispatchHttpCall (cluster : String) (headers : List (String × String))
      (timeoutNanos : Nat) : Event
  | sendHttpResponse (status : Nat) (headers : List (String × String))
      (body : String) : Event

/-- State owned by (or visible to) the RootHandler singleton: the CONFIGS
entry for its context id (a default FilterConfig is inserted in _start, so
one is always present), the shared-data slot under CACHE_KEY, and the
currently armed tick period (none before any set_tick_period call). -/
structure RootState where
  config : FilterConfig
  cache : Option (List Nat)
  tickPeriod : Option Nat

/-- The root state right after _start: default configuration, no shared
data written yet, no timer armed yet. -/
def initialState : RootState :=
  { config := FilterConfig.default, cache := none, tickPeriod := none }

/-- RootHandler::on_configure. Inputs: the configuration blob offered by the
host (none when absent) and whether the host's set_shared_data call
succeeds. Output: the bool returned to the host, the new state, and the
event trace. Mirrors the source: missing blob warns and returns false;
a parse failure warns and returns false with nothing applied; on success the
config is stored, the tick period is set to INITIALISATION_TICK, the cache
slot is reset to empty, and set_shared_data's is_ok is returned. -/
def on_configure (s : RootState) (configuration : Option (List Nat))
    (sharedSetOk : Bool) : Bool × RootState × List Event :=
  match configuration with
  | none => (false, s, [.warn "configuration missing"])
  | some bytes =>
    match parseFilterConfig bytes with
    | .error _ => (false, s, [.warn "failed to parse configuration"])
    | .ok config =>
      let s1 : RootState := { s with config := config, tickPeriod := some INITIALISATION_TICK }
      if sharedSetOk then
        (true, { s1 with cache := none },
         [.debugLog "configuring", .setTickPeriod INITIALISATION_TICK, .setSharedData true])
      else
        (false, s1,
         [.debugLog "configuring", .setTickPeriod INITIALISATION_TICK, .setSharedData false])

/-- RootHandler::on_tick. Input: whether dispatch_http_call succeeds
synchronously. Mirrors the source: log initialising/refreshing from cache
emptiness, set the tick period to the configured expiry, dispatch the GET
call, and on synchronous dispatch failure reset the tick period to
INITIALISATION_TICK and warn. The cache is never touched here. -/
def on_tick (s : RootState) (dispatchOk : Bool) : RootState × List Event :=
  let logEv : Event :=
    match s.cache with
    | none => .debugLog "initialising cached headers"
    | some _ => .debugLog "refreshing cached headers"
  let callHeaders : List (String × String) :=
    [(":method", "GET"),
     (":path", s.config.header_providing_service_path),
     (":authority", s.config.header_providing_service_authority)]
  if dispatchOk then
    ({ s with tickPeriod := some s.config.header_cache_expiry },
     [logEv, .setTickPeriod s.config.header_cache_expiry,
      .dispatchHttpCall s.config.header_providing_service_cluster callHeaders DISPATCH_TIMEOUT])
  else
    ({ s with tickPeriod := some INITIALISATION_TICK },
     [logEv, .setTickPeriod s.config.header_cache_expiry,
      .dispatchHttpCall s.config.header_providing_service_cluster callHeaders DISPATCH_TIMEOUT,
      .setTickPeriod INITIALISATION_TICK,
      .warn "failed calling header providing service"])

/-- RootHandler::on_http_call_response. Inputs: the response body handed
back by the host (none when empty) and whether set_shared_data succeeds.
An empty body only warns; a successful store updates the cache and then
debug-logs the body through String::from_utf8(..).unwrap() — a non-UTF-8
body therefore panics (`none`); a failed store warns and resets the tick
period to INITIALISATION_TICK. -/
def on_http_call_response (s : RootState) (body : Option (List Nat))
    (sharedSetOk : Bool) : Option (RootState × List Event) :=
  match body with
  | none => some (s, [.warn "header providing service returned empty body"])
  | some b =>
    if sharedSetOk then
      match utf8Decode b with
      | none => none
      | some str =>
        some ({ s with cache := some b },
          [.setSharedData true, .debugLog ("refreshed header cache with: " ++ str)])
    else
      some ({ s with tickPeriod := some INITIALISATION_TICK },
        [.setSharedData false, .warn "failed storing header cache",
         .setTickPeriod INITIALISATION_TICK])

/-- HttpHandler::parse_headers. The `?` turns a serde_json parse failure
into an Err; `.as_object().unwrap()` on a non-object value is a panic,
modelled as the outer `none`. -/
def parse_headers (res : List Nat) :
    Option (Except String (List (String × Json))) :=
  match jsonParse res with
  | none => some (.error "invalid json")
  | some j => j.getObj.map .ok

/-- The proxy_wasm::types::Action returned by HTTP callbacks (named
HttpAction here to avoid the ambient mathlib name). -/
inductive HttpAction where
  | Continue : HttpAction
  | Pause : HttpAction

/-- Request headers with every entry named `k` removed (the host's header
map update for a `None` value). -/
def removeHeader (hs : List (String × String)) (k : String) :
    List (String × String) :=
  match hs with
  | [] => []
  | (k1, v) :: rest =>
    if k1 == k then removeHeader rest k else (k1, v) :: removeHeader rest k

/-- Model of proxy-wasm set_http_request_header: a `some` value replaces any
same-named header with the new value; a `none` value removes the header. -/
def setHeader (hs : List (String × String)) (k : String) :
    Option String → List (String × String)
  | some v => removeHeader hs k ++ [(k, v)]
  | none => removeHeader hs k

/-- First value of a named header in a header map. -/
def lookupHeader (hs : List (String × String)) (k : String) : Option String :=
  match hs with
  | [] => none
  | (k1, v) :: rest => if k1 == k then some v else lookupHeader rest k

/-- The injection loop of on_http_request_headers: for each decoded field,
set_http_request_header(&name, value.as_str()). -/
def applyHeaders (hs : List (String × String))
    (m : List (String × Json)) : List (String × String) :=
  m.foldl (fun acc p => setHeader acc p.1 p.2.as_str) hs

/-- Outcome of HttpHandler::on_http_request_headers: the Action returned to
the host, the request headers after any injection, and the event trace. -/
structure HttpOut where
  action : HttpAction
  headers : List (String × String)
  events : List Event

/-- HttpHandler::on_http_request_headers. Inputs: the shared cache slot
(which the handler only reads, never writes — the trace carries no
setSharedData event) and the request headers. A populated cache is first
debug-logged through String::from_utf8(..).unwrap(), so a non-UTF-8 cache
panics (`none`); then parse_headers either yields the header map (each
entry set via as_str) or an Err (warn, forward unmodified); either way
Action::Continue. An empty cache warns, sends the 500 response with the
Powered-By marker header, and returns Action::Pause. -/
def on_http_request_headers (cache : Option (List Nat))
    (reqHeaders : List (String × String)) : Option HttpOut :=
  match cache with
  | some cacheBytes =>
    match utf8Decode cacheBytes with
    | none => none
    | some s =>
      match parse_headers cacheBytes with
      | none => none
      | some (.ok headers) =>
        some { action := .Continue
               headers := applyHeaders reqHeaders headers
               events := [.debugLog ("using existing header cache: " ++ s)] }
      | some (.error e) =>
        some { action := .Continue
               headers := reqHeaders
               events := [.debugLog ("using existing header cache: " ++ s),
                          .warn ("no usable headers cached: " ++ e)] }
  | none =>
    some { action := .Pause
           headers := reqHeaders
           events := [.warn "filter not initialised",
                      .sendHttpResponse 500 [("Powered-By", POWERED_BY)]
                        "Filter not initialised"] }

/-- The bytes of the JSON text "oops" (a valid JSON string, not an object). -/
def oopsBytes : List Nat := strBytes "\"oops\""

/-- The bytes of the JSON object binding X-User to "alice". -/
def aliceBody : List Nat := 123 :: strBytes "\"X-User\":\"alice\"" ++ [125]

/-- The bytes of a JSON object binding X-N to the number 5. -/
def numBody : List Nat := 123 :: strBytes "\"X-N\":5" ++ [125]

/-- The bytes of a JSON object binding X-A to a string and X-B to a bool. -/
def mixBody : List Nat := 123 :: strBytes "\"X-A\":\"x\",\"X-B\":true" ++ [125]

/-- The bytes of an empty JSON object configuration payload. -/
def emptyObjBytes : List Nat := [123, 125]

/-- The bytes of a configuration payload whose header_cache_expiry is the
unparsable duration string "abc". -/
def badDurBytes : List Nat := 123 :: strBytes "\"header_cache_expiry\":\"abc\"" ++ [125]

theorem lookup_removeHeader_self (hs : List (String × String)) (k : String) :
    lookupHeader (removeHeader hs k) k = none := by
  induction hs with
  | nil => rfl
  | cons p rest ih =>
    obtain ⟨k1, v1⟩ := p
    by_cases h : k1 = k
    · simp [removeHeader, h, ih]
    · simp [removeHeader, lookupHeader, h, ih]

theorem lookup_append_single_ne (xs : List (String × String)) (k1 k v : String)
    (h : k1 ≠ k) : lookupHeader (xs ++ [(k1, v)]) k = lookupHeader xs k := by
  induction xs with
  | nil => simp [lookupHeader, h]
  | cons p rest ih =>
    obtain ⟨k2, v2⟩ := p
    by_cases h2 : k2 = k <;> simp [lookupHeader, h2, ih]

theorem lookup_remove_append_self (hs : List (String × String)) (k v : String) :
    lookupHeader (removeHeader hs k ++ [(k, v)]) k = some v := by
  induction hs with
  | nil => simp [removeHeader, lookupHeader]
  | cons p rest ih =>
    obtain ⟨k1, v1⟩ := p
    by_cases h : k1 = k <;> simp [removeHeader, lookupHeader, h, ih]

theorem lookup_removeHeader_ne (hs : List (String × String)) (k1 k : String)
    (h : k1 ≠ k) : lookupHeader (removeHeader hs k1) k = lookupHeader hs k := by
  induction hs with
  | nil => rfl
  | cons p rest ih =>
    obtain ⟨k2, v2⟩ := p
    by_cases h2 : k2 = k1
    · have hne : k2 ≠ k := by rw [h2]; exact h
      simp [removeHeader, lookupHeader, h2, hne, h, ih]
    · by_cases h3 : k2 = k <;>
        simp [removeHeader, lookupHeader, h2, h3, h, Ne.symm h, ih]

theorem lookup_setHeader_self (hs : List (String × String)) (k : String)
    (ov : Option String) : lookupHeader (setHeader hs k ov) k = ov := by
  cases ov with
  | some v => exact lookup_remove_append_self hs k v
  | none => exact lookup_removeHeader_self hs k

theorem lookup_setHeader_ne (hs : List (String × String)) (k1 k : String)
    (ov : Option String) (h : k1 ≠ k) :
    lookupHeader (setHeader hs k1 ov) k = lookupHeader hs k := by
  cases ov with
  | some v =>
    calc lookupHeader (removeHeader hs k1 ++ [(k1, v)]) k
        = lookupHeader (removeHeader hs k1) k := lookup_append_single_ne _ _ _ _ h
      _ = lookupHeader hs k := lookup_removeHeader_ne hs k1 k h
  | none => exact lookup_removeHeader_ne hs k1 k h

theorem lookup_applyHeaders_not_mem (m : List (String × Json))
    (hs : List (String × String)) (k : String) (h : ∀ p ∈ m, p.1 ≠ k) :
    lookupHeader (applyHeaders hs m) k = lookupHeader hs k := by
  induction m generalizing hs with
  | nil => rfl
  | cons p rest ih =>
    obtain ⟨k1, v1⟩ := p
    have h1 : k1 ≠ k := h (k1, v1) (List.mem_cons_self _ _)
    have hrest : ∀ q ∈ rest, q.1 ≠ k := fun q hq => h q (List.mem_cons_of_mem _ hq)
    calc lookupHeader (applyHeaders hs ((k1, v1) :: rest)) k
        = lookupHeader (applyHeaders (setHeader hs k1 v1.as_str) rest) k := rfl
      _ = lookupHeader (setHeader hs k1 v1.as_str) k := ih _ hrest
      _ = lookupHeader hs k := lookup_setHeader_ne hs k1 k _ h1

theorem lookup_applyHeaders_mem (m : List (String × Json))
    (hs : List (String × String)) (k : String) (v : Json)
    (hnd : (m.map Prod.fst).Nodup) (hmem : (k, v) ∈ m) :
    lookupHeader (applyHeaders hs m) k = v.as_str := by
  induction m generalizing hs with
  | nil => cases hmem
  | cons p rest ih =>
    obtain ⟨k1, v1⟩ := p
    rw [List.map_cons, List.nodup_cons] at hnd
    obtain ⟨hk1, hndrest⟩ := hnd
    rcases List.mem_cons.mp hmem with heq | htail
    · injection heq with hk hv
      subst hk
      subst hv
      have hrest : ∀ q ∈ rest, q.1 ≠ k := by
        intro q hq hqk
        have hq1 : q.1 ∈ rest.map Prod.fst := List.mem_map_of_mem Prod.fst hq
        rw [hqk] at hq1
        exact hk1 hq1
      calc lookupHeader (applyHeaders hs ((k, v) :: rest)) k
          = lookupHeader (applyHeaders (setHeader hs k v.as_str) rest) k := rfl
        _ = lookupHeader (setHeader hs k v.as_str) k :=
            lookup_applyHeaders_not_mem rest _ k hrest
        _ = v.as_str := lookup_setHeader_self _ k _
    · exact ih (setHeader hs k1 v1.as_str) hndrest htail

/-- A wrong-typed (present but non-string) binding of a string field. -/
def badStrField (m : List (String × Json)) (k : String) : Bool :=
  match lookupField m k with
  | some (.str _) => false
  | some _ => true
  | none => false

/-- A bad binding of the duration field: present but either non-string or an
unparsable duration string. -/
def badDurField (m : List (String × Json)) : Bool :=
  match lookupField m "header_cache_expiry" with
  | some (.str s) => (parseDuration s).isNone
  | some _ => true
  | none => false

/-- A valid (absent or string) binding of a string field. -/
def goodStrField (m : List (String × Json)) (k : String) : Bool :=
  match lookupField m k with
  | none => true
  | some (.str _) => true
  | some _ => false

/-- A valid binding of the duration field: absent, or a parseable duration
string. -/
def goodDurField (m : List (String × Json)) : Bool :=
  match lookupField m "header_cache_expiry" with
  | none => true
  | some (.str s) => (parseDuration s).isSome
  | some _ => false

theorem badStrField_of_ok (m : List (String × Json)) (k d v : String)
    (h : getStringField m k d = .ok v) : badStrField m k = false := by
  unfold getStringField at h
  unfold badStrField
  cases hl : lookupField m k with
  | none => rfl
  | some j => cases j <;> simp [hl] at h ⊢

theorem badDurField_of_ok (m : List (String × Json)) (d v : Nat)
    (h : getDurationField m "header_cache_expiry" d = .ok v) :
    badDurField m = false := by
  unfold getDurationField at h
  unfold badDurField
  cases hl : lookupField m "header_cache_expiry" with
  | none => rfl
  | some j =>
    cases j <;> simp [hl] at h ⊢
    case str s =>
      cases hp : parseDuration s with
      | none => rw [hp] at h; cases h
      | some n => simp [hp]

theorem fromJson_err_of_bad (m : List (String × Json))
    (hbad : (badStrField m "header_providing_service_cluster"
      || badStrField m "header_providing_service_path"
      || badStrField m "header_providing_service_authority"
      || badDurField m) = true) :
    ∃ e, FilterConfig.fromJson (.obj m) = .error e := by
  cases hdup : dupKnownField m with
  | true => exact ⟨"duplicate field", by simp [FilterConfig.fromJson, Json.getObj, hdup]⟩
  | false =>
  cases h1 : getStringField m "header_providing_service_cluster"
      FilterConfig.default.header_providing_service_cluster with
  | error e => exact ⟨e, by simp [FilterConfig.fromJson, Json.getObj, hdup, h1]⟩
  | ok v1 =>
    cases h2 : getStringField m "header_providing_service_path"
        FilterConfig.default.header_providing_service_path with
    | error e => exact ⟨e, by simp [FilterConfig.fromJson, Json.getObj, hdup, h1, h2]⟩
    | ok v2 =>
      cases h3 : getStringField m "header_providing_service_authority"
          FilterConfig.default.header_providing_service_authority with
      | error e => exact ⟨e, by simp [FilterConfig.fromJson, Json.getObj, hdup, h1, h2, h3]⟩
      | ok v3 =>
        cases h4 : getDurationField m "header_cache_expiry"
            FilterConfig.default.header_cache_expiry with
        | error e => exact ⟨e, by simp [FilterConfig.fromJson, Json.getObj, hdup, h1, h2, h3, h4]⟩
        | ok v4 =>
          rw [badStrField_of_ok m _ _ _ h1, badStrField_of_ok m _ _ _ h2,
            badStrField_of_ok m _ _ _ h3, badDurField_of_ok m _ _ h4] at hbad
          cases hbad

theorem goodStrField_elim (m : List (String × Json)) (k d : String)
    (hg : goodStrField m k = true) :
    ∃ v, getStringField m k d = .ok v ∧ (lookupField m k = none → v = d) := by
  unfold goodStrField at hg
  cases hl : lookupField m k with
  | none => exact ⟨d, by simp [getStringField, hl], fun _ => rfl⟩
  | some j =>
    rw [hl] at hg
    cases j <;> simp at hg
    rename_i s
    exact ⟨s, by simp [getStringField, hl], by intro h; simp at h⟩

theorem goodDurField_elim (m : List (String × Json)) (d : Nat)
    (hg : goodDurField m = true) :
    ∃ v, getDurationField m "header_cache_expiry" d = .ok v
      ∧ (lookupField m "header_cache_expiry" = none → v = d) := by
  unfold goodDurField at hg
  cases hl : lookupField m "header_cache_expiry" with
  | none => exact ⟨d, by simp [getDurationField, hl], fun _ => rfl⟩
  | some j =>
    rw [hl] at hg
    cases j <;> simp at hg
    rename_i s
    cases hp : parseDuration s with
    | none => rw [hp] at hg; simp at hg
    | some n =>
      exact ⟨n, by simp [getDurationField, hl, hp], by intro h; simp at h⟩

/-- C1: the spec says a cache holding valid JSON that is not a JSON object
(e.g. the JSON text "oops") is forwarded unmodified with a warning and never
a 500. The code instead panics: parse_headers calls as_object().unwrap() on
a non-object value, so on_http_request_headers returns no Action at all.
This theorem evaluates the embedded code at the failing input: the cached
bytes are the valid JSON string "oops" (not an object), and the handler's
result is the panic (`none`) rather than any forwarding outcome. -/
theorem c1_nonobject_json_panics :
    jsonParse oopsBytes = some (.str "oops")
    ∧ (Json.str "oops").getObj = none
    ∧ on_http_request_headers (some oopsBytes) [] = none :=
  ⟨rfl, rfl, rfl⟩

/-- C2 counterexample: the claim says every value of a cached JSON object is
stringified and set as the header value. With the cache holding the object
binding X-N to the number 5 and an incoming request that already carries an
X-N header, the handler returns Continue but the X-N header is absent
afterwards (as_str() on a number is None, and set_http_request_header with
None removes the header) — not set to "5" as the claim requires. -/
theorem c2_number_value_not_stringified :
    (on_http_request_headers (some numBody) [("X-N", "old")]).map
      (fun o => lookupHeader o.headers "X-N") = some none
    ∧ (on_http_request_headers (some numBody) [("X-N", "old")]).map
      (fun o => o.action) = some HttpAction.Continue :=
  ⟨rfl, rfl⟩

/-- C2 amended: for every cached JSON object (UTF-8 cache bytes, decode
succeeding, keys distinct), each field is passed through Value::as_str():
a string value is set verbatim as the request header, while a non-string
value yields None and the header of that name is removed rather than set to
a stringified form; the request then continues. -/
theorem c2_amended_as_str_semantics (bytes : List Nat) (m : List (String × Json))
    (hs : List (String × String)) (k : String) (v : Json)
    (hu : (utf8Decode bytes).isSome = true)
    (hp : parse_headers bytes = some (.ok m))
    (hnd : (m.map Prod.fst).Nodup) (hmem : (k, v) ∈ m) :
    ∃ out, on_http_request_headers (some bytes) hs = some out
      ∧ out.action = HttpAction.Continue
      ∧ lookupHeader out.headers k = v.as_str := by
  cases hud : utf8Decode bytes with
  | none => rw [hud] at hu; cases hu
  | some str =>
    refine ⟨{ action := .Continue, headers := applyHeaders hs m,
              events := [.debugLog ("using existing header cache: " ++ str)] },
            ?_, rfl, ?_⟩
    · simp [on_http_request_headers, hud, hp]
    · exact lookup_applyHeaders_mem m hs k v hnd hmem

/-- C2 amended, witness: cache object binding X-A to the string "x" and X-B
to true; the X-B header ends up absent (as_str of a bool is none). -/
theorem c2_amended_as_str_semantics_witness :
    ∃ out, on_http_request_headers (some mixBody) [] = some out
      ∧ out.action = HttpAction.Continue
      ∧ lookupHeader out.headers "X-B" = Json.as_str (.bool true) :=
  c2_amended_as_str_semantics mixBody [("X-A", .str "x"), ("X-B", .bool true)]
    [] "X-B" (.bool true) rfl rfl (by decide)
    (List.Mem.tail _ (List.Mem.head _))

/-- C3: with the shared cache slot empty, on_http_request_headers warns,
sends the HTTP 500 response with body "Filter not initialised" and the
marker header Powered-By: header-augmenting-filter, returns Action::Pause,
and leaves the request headers untouched; the pinned trace contains no
shared-data write, so the cache is not modified. -/
theorem c3_uninitialised_rejected (hs : List (String × String)) :
    on_http_request_headers none hs = some
      { action := .Pause
        headers := hs
        events := [.warn "filter not initialised",
                   .sendHttpResponse 500 [("Powered-By", POWERED_BY)]
                     "Filter not initialised"] } :=
  rfl

/-- C4: from any root state, a tick whose dispatch succeeds followed by a
successful fetch response with body X-User - alice stores that body in the
cache and leaves the timer at the configured cacheExpiry; a request served
from that cache gets its X-User header set to alice and continues. -/
theorem c4_alice_fetch_then_inject (s : RootState) (hs : List (String × String)) :
    (on_http_call_response (on_tick s true).1 (some aliceBody) true).map
      (fun p => p.1.cache) = some (some aliceBody)
    ∧ (on_http_call_response (on_tick s true).1 (some aliceBody) true).map
      (fun p => p.1.tickPeriod) = some (some s.config.header_cache_expiry)
    ∧ ∃ out, on_http_request_headers (some aliceBody) hs = some out
        ∧ out.action = HttpAction.Continue
        ∧ lookupHeader out.headers "X-User" = some "alice" := by
  refine ⟨rfl, rfl, ?_⟩
  refine ⟨_, rfl, rfl, ?_⟩
  exact lookup_setHeader_self hs "X-User" (some "alice")

/-- C5: on every tick (a configuration is always stored: _start inserts a
default one), the timer is rearmed to cacheExpiry before the dispatch; when
the dispatch fails synchronously the timer is then rearmed back to
INITIALISATION_TICK and a warning is recorded; in both cases only the tick
period changes (the cache and the configuration are untouched), and this
holds for every state, i.e. regardless of phase. -/
theorem c5_tick_rearm_and_dispatch_failure (s : RootState) : ∃ d,
    on_tick s true = ({ s with tickPeriod := some s.config.header_cache_expiry },
      [.debugLog d, .setTickPeriod s.config.header_cache_expiry,
       .dispatchHttpCall s.config.header_providing_service_cluster
         [(":method", "GET"), (":path", s.config.header_providing_service_path),
          (":authority", s.config.header_providing_service_authority)]
         DISPATCH_TIMEOUT])
    ∧ on_tick s false = ({ s with tickPeriod := some INITIALISATION_TICK },
      [.debugLog d, .setTickPeriod s.config.header_cache_expiry,
       .dispatchHttpCall s.config.header_providing_service_cluster
         [(":method", "GET"), (":path", s.config.header_providing_service_path),
          (":authority", s.config.header_providing_service_authority)]
         DISPATCH_TIMEOUT,
       .setTickPeriod INITIALISATION_TICK,
       .warn "failed calling header providing service"]) := by
  cases hc : s.cache with
  | none =>
    exact ⟨"initialising cached headers", by simp [on_tick, hc], by simp [on_tick, hc]⟩
  | some b =>
    exact ⟨"refreshing cached headers", by simp [on_tick, hc], by simp [on_tick, hc]⟩

/-- C6: whenever on_configure returns true, the shared cache slot has been
reset to empty and the timer has been armed at INITIALISATION_TICK (3s). -/
theorem c6_configure_success_state (s : RootState) (cfg : Option (List Nat))
    (ok : Bool) (h : (on_configure s cfg ok).1 = true) :
    (on_configure s cfg ok).2.1.cache = none
    ∧ (on_configure s cfg ok).2.1.tickPeriod = some INITIALISATION_TICK := by
  match cfg with
  | none => simp [on_configure] at h
  | some bytes =>
    cases hp : parseFilterConfig bytes with
    | error e => simp [on_configure, hp] at h
    | ok c =>
      cases ok with
      | false => simp [on_configure, hp] at h
      | true => simp [on_configure, hp]

/-- C6 witness: configuring with the empty-object payload succeeds and
leaves an empty cache and a 3s timer. -/
theorem c6_configure_success_state_witness :
    (on_configure initialState (some emptyObjBytes) true).1 = true
    ∧ (on_configure initialState (some emptyObjBytes) true).2.1.cache = none
    ∧ (on_configure initialState (some emptyObjBytes) true).2.1.tickPeriod
        = some INITIALISATION_TICK :=
  ⟨rfl, c6_configure_success_state initialState (some emptyObjBytes) true rfl⟩

/-- C7: a configuration payload whose JSON object has a wrong-typed field or
a malformed duration string makes on_configure return false with only a
warning: no field is applied, the timer is not armed, the cache slot is not
reset — the state is returned unchanged. -/
theorem c7_bad_config_rejected_unchanged (s : RootState) (bytes : List Nat)
    (ok : Bool) (m : List (String × Json))
    (hj : jsonParse bytes = some (.obj m))
    (hbad : (badStrField m "header_providing_service_cluster"
      || badStrField m "header_providing_service_path"
      || badStrField m "header_providing_service_authority"
      || badDurField m) = true) :
    on_configure s (some bytes) ok
      = (false, s, [.warn "failed to parse configuration"]) := by
  obtain ⟨e, he⟩ := fromJson_err_of_bad m hbad
  simp [on_configure, parseFilterConfig, hj, he]

/-- C7 witness: the payload whose header_cache_expiry is the unparsable
duration string "abc" is rejected and the state is unchanged. -/
theorem c7_bad_config_rejected_unchanged_witness :
    jsonParse badDurBytes = some (.obj [("header_cache_expiry", .str "abc")])
    ∧ on_configure initialState (some badDurBytes) true
        = (false, initialState, [.warn "failed to parse configuration"]) :=
  ⟨rfl, c7_bad_config_rejected_unchanged initialState badDurBytes true
    [("header_cache_expiry", .str "abc")] rfl rfl⟩

/-- C8: an empty upstream response body makes on_http_call_response warn and
return with the state — cache (whatever it holds) and tick period — entirely
unchanged. -/
theorem c8_empty_body_leaves_state (s : RootState) (ok : Bool) :
    on_http_call_response s none ok
      = some (s, [.warn "header providing service returned empty body"]) :=
  rfl

/-- C9: for every configuration payload that is a JSON object whose present
fields are valid (string fields bound to strings, the expiry bound to a
parseable duration string, no known field bound twice — serde rejects a
duplicated known field), parsing succeeds, and every absent field takes
its documented default: cluster "sidecar", path "/headers", authority
"sidecar", expiry 360 seconds. -/
theorem c9_partial_config_defaults (bytes : List Nat) (m : List (String × Json))
    (hj : jsonParse bytes = some (.obj m))
    (hdup : dupKnownField m = false)
    (h1 : goodStrField m "header_providing_service_cluster" = true)
    (h2 : goodStrField m "header_providing_service_path" = true)
    (h3 : goodStrField m "header_providing_service_authority" = true)
    (h4 : goodDurField m = true) :
    ∃ c, parseFilterConfig bytes = .ok c
      ∧ (lookupField m "header_providing_service_cluster" = none →
          c.header_providing_service_cluster = "sidecar")
      ∧ (lookupField m "header_providing_service_path" = none →
          c.header_providing_service_path = "/headers")
      ∧ (lookupField m "header_providing_service_authority" = none →
          c.header_providing_service_authority = "sidecar")
      ∧ (lookupField m "header_cache_expiry" = none →
          c.header_cache_expiry = 360 * nanosPerSec) := by
  obtain ⟨v1, e1, d1⟩ := goodStrField_elim m "header_providing_service_cluster"
    FilterConfig.default.header_providing_service_cluster h1
  obtain ⟨v2, e2, d2⟩ := goodStrField_elim m "header_providing_service_path"
    FilterConfig.default.header_providing_service_path h2
  obtain ⟨v3, e3, d3⟩ := goodStrField_elim m "header_providing_service_authority"
    FilterConfig.default.header_providing_service_authority h3
  obtain ⟨v4, e4, d4⟩ := goodDurField_elim m
    FilterConfig.default.header_cache_expiry h4
  refine ⟨⟨v1, v2, v3, v4⟩, ?_, ?_, ?_, ?_, ?_⟩
  · simp [parseFilterConfig, hj, FilterConfig.fromJson, Json.getObj, hdup, e1, e2, e3, e4]
  · exact d1
  · exact d2
  · exact d3
  · exact d4

/-- C9 witness: the empty-object payload parses and every field is its
default. -/
theorem c9_partial_config_defaults_witness :
    ∃ c, parseFilterConfig emptyObjBytes = .ok c
      ∧ (lookupField ([] : List (String × Json)) "header_providing_service_cluster" = none →
          c.header_providing_service_cluster = "sidecar")
      ∧ (lookupField ([] : List (String × Json)) "header_providing_service_path" = none →
          c.header_providing_service_path = "/headers")
      ∧ (lookupField ([] : List (String × Json)) "header_providing_service_authority" = none →
          c.header_providing_service_authority = "sidecar")
      ∧ (lookupField ([] : List (String × Json)) "header_cache_expiry" = none →
          c.header_cache_expiry = 360 * nanosPerSec) :=
  c9_partial_config_defaults emptyObjBytes [] rfl rfl rfl rfl rfl rfl

/-- C10: there is a cached payload that is not valid UTF-8 (the single byte
0xFF) on which on_http_request_headers panics — the unwrap on the UTF-8
conversion done for the debug log fails before any decode or injection — so
no Action is returned. -/
theorem c10_non_utf8_cache_panics :
    utf8Decode [255] = none
    ∧ on_http_request_headers (some [255]) [] = none :=
  ⟨rfl, rfl⟩
